import Mathlib

/-!
Verification of the cart-and-checkout workflow of the GDPerplexity storefront.

The definitions below are shallow embeddings of:
* the client cart store (useCartStore and its helper functions),
* the product catalog query schema (ProductQuerySchema and the GET handler),
* the checkout endpoint (POST: inventory validation, order creation, payment
  session, order link-back).

Prices and quantities are modelled as rationals (the source language has a
single number type), fallible steps return Except, and the persisted order
table of the checkout endpoint is threaded explicitly as a list of orders.
User-visible notifications (toast calls) are returned as an explicit event
list so that error signals such as CapacityExceeded are observable.
-/

namespace GD

/-- One entry of the client cart (CartItem in the cart store). The
customizations bag is modelled by its serialized form, since the source
compares customizations via their serialization. -/
structure CartItem where
  id : String
  productId : String
  variantId : Option String
  name : String
  image : String
  price : ℚ
  quantity : ℚ
  size : Option String
  color : Option String
  customizations : Option String
  maxQuantity : ℚ
  sku : String
deriving Repr, DecidableEq

/-- A cart item before a fresh identity is assigned (Omit of the id field). -/
structure NewCartItem where
  productId : String
  variantId : Option String
  name : String
  image : String
  price : ℚ
  quantity : ℚ
  size : Option String
  color : Option String
  customizations : Option String
  maxQuantity : ℚ
  sku : String
deriving Repr, DecidableEq

/-- The cart store state: item sequence plus the drawer visibility flag. -/
structure CartState where
  items : List CartItem
  isOpen : Bool
deriving Repr, DecidableEq

/-- A user-visible toast notification emitted by a cart operation. -/
inductive Toast where
  | error (msg : String)
  | success (msg : String)
deriving Repr, DecidableEq

/-- The toast message used when a requested quantity exceeds the stock
ceiling (the CapacityExceeded signal). -/
def stockMsg (m : ℚ) : String :=
  "Only " ++ toString m ++ " items available in stock"

/-- The deduplication predicate of addItem: same productId, same variantId,
and equal serialized customizations. -/
def dedupMatch (n : NewCartItem) (it : CartItem) : Bool :=
  it.productId == n.productId && it.variantId == n.variantId &&
    it.customizations == n.customizations

/-- Replace the first list entry satisfying p by its image under f.  This is
the effect of the source code mapping over the list and replacing the entry
at the index returned by findIndex. -/
def updateFirstMatch (p : CartItem → Bool) (f : CartItem → CartItem) :
    List CartItem → List CartItem
  | [] => []
  | it :: rest => if p it then f it :: rest else it :: updateFirstMatch p f rest

/-- Attach a fresh identity to a new item (spread plus crypto.randomUUID). -/
def mkFreshItem (n : NewCartItem) (freshId : String) : CartItem :=
  { id := freshId, productId := n.productId, variantId := n.variantId,
    name := n.name, image := n.image, price := n.price, quantity := n.quantity,
    size := n.size, color := n.color, customizations := n.customizations,
    maxQuantity := n.maxQuantity, sku := n.sku }

/-- The addItem action of the cart store.  The fresh identity is passed in
as a parameter (the source draws it from crypto.randomUUID).  On success the
drawer is opened (the deferred 3000 ms auto-close timer is a fire-and-forget
effect not modelled here).  Early returns on capacity violations leave the
state unchanged and emit the error toast. -/
def addItem (freshId : String) (s : CartState) (n : NewCartItem) :
    CartState × List Toast :=
  match s.items.find? (dedupMatch n) with
  | some existing =>
    let newQuantity := existing.quantity + n.quantity
    if existing.maxQuantity < newQuantity then
      (s, [Toast.error (stockMsg existing.maxQuantity)])
    else
      ({ items := updateFirstMatch (dedupMatch n)
            (fun it => { it with quantity := newQuantity }) s.items,
         isOpen := true },
       [Toast.success "Updated quantity in cart"])
  | none =>
    if n.maxQuantity < n.quantity then
      (s, [Toast.error (stockMsg n.maxQuantity)])
    else
      ({ items := s.items ++ [mkFreshItem n freshId], isOpen := true },
       [Toast.success (n.name ++ " added to cart")])

/-- The removeItem action: filters out the entry with the given identity and
emits a success toast only when the entry existed. -/
def removeItem (s : CartState) (itemId : String) : CartState × List Toast :=
  let item := s.items.find? (fun it => it.id == itemId)
  let s2 : CartState := { s with items := s.items.filter (fun it => it.id != itemId) }
  match item with
  | some it => (s2, [Toast.success (it.name ++ " removed from cart")])
  | none => (s2, [])

/-- The updateQuantity action: delegates to removeItem for non-positive
quantities, silently no-ops when the identity is absent, rejects quantities
above the stock ceiling, and otherwise replaces the quantity. -/
def updateQuantity (s : CartState) (itemId : String) (quantity : ℚ) :
    CartState × List Toast :=
  if quantity ≤ 0 then removeItem s itemId
  else
    match s.items.find? (fun it => it.id == itemId) with
    | none => (s, [])
    | some item =>
      if item.maxQuantity < quantity then
        (s, [Toast.error (stockMsg item.maxQuantity)])
      else
        ({ s with items := s.items.map (fun it =>
            if it.id == itemId then { it with quantity := quantity } else it) },
         [])

/-- The clearCart action: empties the item sequence unconditionally. -/
def clearCart (s : CartState) : CartState × List Toast :=
  ({ s with items := [] }, [Toast.success "Cart cleared"])

/-- The toggleCart action. -/
def toggleCart (s : CartState) : CartState :=
  { s with isOpen := !s.isOpen }

/-- The openCart action. -/
def openCart (s : CartState) : CartState :=
  { s with isOpen := true }

/-- The closeCart action. -/
def closeCart (s : CartState) : CartState :=
  { s with isOpen := false }

/-- The getTotalItems derived query. -/
def getTotalItems (s : CartState) : ℚ :=
  s.items.foldl (fun total it => total + it.quantity) 0

/-- The getTotalPrice derived query. -/
def getTotalPrice (s : CartState) : ℚ :=
  s.items.foldl (fun total it => total + it.price * it.quantity) 0

/-- The cart data-model invariant stated by the spec: every quantity lies in
the closed interval from 1 to the maxQuantity of its entry. -/
def cartInvariant (s : CartState) : Prop :=
  ∀ it ∈ s.items, 1 ≤ it.quantity ∧ it.quantity ≤ it.maxQuantity

instance (s : CartState) : Decidable (cartInvariant s) := by
  unfold cartInvariant; infer_instance

namespace Cart

/-- The cart-side shipping helper (calculateShipping in the cart store
module). -/
def calculateShipping (totalPrice : ℚ) : ℚ :=
  if totalPrice ≥ 150 then 0
  else if totalPrice ≥ 100 then 9.99
  else if totalPrice ≥ 50 then 14.99
  else 19.99

end Cart

namespace Checkout

/-- The checkout-side shipping helper (calculateShipping in the checkout
route file). -/
def calculateShipping (subtotal : ℚ) : ℚ :=
  if subtotal ≥ 150 then 0
  else if subtotal ≥ 100 then 9.99
  else if subtotal ≥ 50 then 14.99
  else 19.99

end Checkout

/-- Modelled from the spec: the shipping tier schedule as written in the
spec text, to be compared with the two source helpers. -/
def specShippingSchedule (subtotal : ℚ) : ℚ :=
  if subtotal ≥ 150 then 0
  else if subtotal ≥ 100 then 9.99
  else if subtotal ≥ 50 then 14.99
  else 19.99

/-! ## Cart persistence

The persist middleware stores, under a fixed storage key, the JSON
serialization of the portion of the state selected by the configured
projection, which keeps only the item sequence.  On reload the stored
portion is merged over the freshly created initial state (items empty,
drawer closed), so the visibility flag comes from the initial state. -/

/-- A JSON value, the serialization format of the persisted cart. -/
inductive Json where
  | null : Json
  | str (s : String) : Json
  | num (q : ℚ) : Json
  | bool (b : Bool) : Json
  | arr (xs : List Json) : Json
  | obj (fields : List (String × Json)) : Json

/-- The persisted portion of the cart state (the partialized state): only
the item sequence is kept. -/
structure PersistedCart where
  items : List CartItem
deriving Repr, DecidableEq

/-- The projection applied before persisting (the partialize option). -/
def persistedPortion (s : CartState) : PersistedCart :=
  { items := s.items }

/-- Encode an optional string field. -/
def encodeOptStr : Option String → Json
  | none => Json.null
  | some s => Json.str s

/-- Decode an optional string field. -/
def decodeOptStr : Json → Option (Option String)
  | Json.null => some none
  | Json.str s => some (some s)
  | _ => none

/-- JSON encoding of one cart item. -/
def encodeItem (it : CartItem) : Json :=
  Json.obj [("id", Json.str it.id), ("productId", Json.str it.productId),
    ("variantId", encodeOptStr it.variantId), ("name", Json.str it.name),
    ("image", Json.str it.image), ("price", Json.num it.price),
    ("quantity", Json.num it.quantity), ("size", encodeOptStr it.size),
    ("color", encodeOptStr it.color),
    ("customizations", encodeOptStr it.customizations),
    ("maxQuantity", Json.num it.maxQuantity), ("sku", Json.str it.sku)]

/-- JSON decoding of one cart item. -/
def decodeItem : Json → Option CartItem
  | Json.obj [("id", Json.str i), ("productId", Json.str pid),
      ("variantId", v), ("name", Json.str n), ("image", Json.str img),
      ("price", Json.num pr), ("quantity", Json.num q), ("size", sz),
      ("color", co), ("customizations", cu), ("maxQuantity", Json.num mx),
      ("sku", Json.str sk)] => do
    let v2 ← decodeOptStr v
    let sz2 ← decodeOptStr sz
    let co2 ← decodeOptStr co
    let cu2 ← decodeOptStr cu
    some { id := i, productId := pid, variantId := v2, name := n,
           image := img, price := pr, quantity := q, size := sz2,
           color := co2, customizations := cu2, maxQuantity := mx, sku := sk }
  | _ => none

/-- Decode a list of cart items, failing if any element fails. -/
def decodeItems : List Json → Option (List CartItem)
  | [] => some []
  | j :: rest => do
    let it ← decodeItem j
    let tail ← decodeItems rest
    some (it :: tail)

/-- Serialize the persisted portion of the cart as stored under the fixed
storage key. -/
def serializeCart (p : PersistedCart) : Json :=
  Json.obj [("state", Json.obj [("items", Json.arr (p.items.map encodeItem))]),
            ("version", Json.num 0)]

/-- The initial cart state created on first client load. -/
def initialCartState : CartState :=
  { items := [], isOpen := false }

/-- Restore a cart state from the stored JSON: the decoded persisted portion
is merged over the initial state, so every field outside the persisted
portion (in particular the visibility flag) comes from the initial state. -/
def rehydrateCart (j : Json) : CartState :=
  match j with
  | Json.obj [("state", Json.obj [("items", Json.arr xs)]), ("version", Json.num _)] =>
    match decodeItems xs with
    | some its => { initialCartState with items := its }
    | none => initialCartState
  | _ => initialCartState

/-! ## Catalog query service (products GET route) -/

/-- The raw query string parameters of the catalog read endpoint, each
present or absent. -/
structure RawQuery where
  page : Option String
  limit : Option String
  category : Option String
  search : Option String
  minPrice : Option String
  maxPrice : Option String
  occasion : Option String
  fabric : Option String
  color : Option String
  size : Option String
  sortBy : Option String
  inStock : Option String
deriving Repr, DecidableEq

/-- Digits to a natural number. -/
def digitsToNat (ds : List Char) : Nat :=
  ds.foldl (fun n c => n * 10 + (c.toNat - 48)) 0

/-- Model of the JavaScript parseInt applied to a string: optional sign
followed by a maximal digit prefix; none models NaN. -/
def jsParseInt (s : String) : Option Int :=
  let cs := s.data.dropWhile (fun c => c == ' ')
  let signAndRest : Int × List Char :=
    match cs with
    | '-' :: r => (-1, r)
    | '+' :: r => (1, r)
    | r => (1, r)
  let ds := signAndRest.2.takeWhile Char.isDigit
  if ds.isEmpty then none
  else some (signAndRest.1 * (digitsToNat ds : Int))

/-- Model of the JavaScript parseFloat applied to a string: optional sign,
digits, optional decimal point and fraction digits; none models NaN. -/
def jsParseFloat (s : String) : Option ℚ :=
  let cs := s.data.dropWhile (fun c => c == ' ')
  let signAndRest : ℚ × List Char :=
    match cs with
    | '-' :: r => (-1, r)
    | '+' :: r => (1, r)
    | r => (1, r)
  let intPart := signAndRest.2.takeWhile Char.isDigit
  let rest2 := signAndRest.2.drop intPart.length
  match rest2 with
  | '.' :: r2 =>
    let fracPart := r2.takeWhile Char.isDigit
    if intPart.isEmpty && fracPart.isEmpty then none
    else some (signAndRest.1 *
      ((digitsToNat intPart : ℚ) + (digitsToNat fracPart : ℚ) / (10 : ℚ) ^ fracPart.length))
  | _ =>
    if intPart.isEmpty then none
    else some (signAndRest.1 * (digitsToNat intPart : ℚ))

/-- The admissible values of the sortBy enum. -/
def sortByValues : List String :=
  ["featured", "price-asc", "price-desc", "name", "newest"]

/-- The parsed catalog query.  A page, limit or price bound parsed from a
non-numeric string is the JavaScript NaN, modelled as none in the inner
option; an absent price bound is the outer none. -/
structure ParsedQuery where
  page : Option Int
  limit : Option Int
  category : Option String
  search : Option String
  minPrice : Option (Option ℚ)
  maxPrice : Option (Option ℚ)
  occasion : Option String
  fabric : Option String
  color : Option String
  size : Option String
  sortBy : String
  inStock : Bool
deriving Repr, DecidableEq

/-- The transformed field values of ProductQuerySchema for a given sortBy
value: page and limit default then parse (possibly to NaN), the price
bounds parse when present, inStock compares against the string true. -/
def productQueryParsed (q : RawQuery) (sb : String) : ParsedQuery :=
  { page := jsParseInt (q.page.getD "1"), limit := jsParseInt (q.limit.getD "12"),
    category := q.category, search := q.search,
    minPrice := q.minPrice.map jsParseFloat, maxPrice := q.maxPrice.map jsParseFloat,
    occasion := q.occasion, fabric := q.fabric, color := q.color, size := q.size,
    sortBy := sb, inStock := q.inStock == some "true" }

/-- The parse of ProductQuerySchema.  The page, limit and price transforms
never fail (they may produce NaN); the only failing validation is the
sortBy enum. -/
def productQuerySchemaParse (q : RawQuery) : Except String ParsedQuery :=
  match q.sortBy with
  | some sb =>
    if sortByValues.contains sb then Except.ok (productQueryParsed q sb)
    else Except.error "Invalid enum value"
  | none => Except.ok (productQueryParsed q "featured")

/-- The HTTP status of the catalog GET handler as determined by query
validation: a schema parse failure is caught as a ZodError and answered
with status 400, otherwise the request proceeds (status 200 in the pure
model, where the database reads cannot fail). -/
def productsGETstatus (q : RawQuery) : Nat :=
  match productQuerySchemaParse q with
  | Except.error _ => 400
  | Except.ok _ => 200

/-- Whether the sortBy parameter passes the only failing validation of the
schema. -/
def sortByAccepted : Option String → Bool
  | none => true
  | some s => sortByValues.contains s

/-! ## Checkout endpoint (checkout POST route)

The database is a list of products, the order table is threaded explicitly
as a list of orders, and the external payment provider is an oracle value:
either a session or the message of the thrown provider error. -/

/-- A product variant as read by the checkout route. -/
structure Variant where
  id : String
  sku : String
  price : ℚ
  stockQuantity : ℚ
deriving Repr, DecidableEq

/-- A product as read by the checkout route (images are the ordered image
urls; only the first is used). -/
structure Product where
  id : String
  name : String
  shortDescription : Option String
  sku : String
  basePrice : ℚ
  salePrice : Option ℚ
  stockQuantity : ℚ
  isActive : Bool
  images : List String
  variants : List Variant
deriving Repr, DecidableEq

/-- One line of the submitted cart snapshot. -/
structure CheckoutItem where
  productId : String
  variantId : Option String
  quantity : ℚ
  size : Option String
  color : Option String
  customizations : Option String
deriving Repr, DecidableEq

/-- The checkout request body. -/
structure CheckoutRequest where
  items : List CheckoutItem
  shippingAddress : String
  billingAddress : String
  customerNotes : Option String
deriving Repr, DecidableEq

/-- A frozen order line snapshot persisted with the order. -/
structure OrderItem where
  productId : String
  quantity : ℚ
  unitPrice : ℚ
  totalPrice : ℚ
  productName : String
  productImage : Option String
  productSku : String
  customizations : Option String
deriving Repr, DecidableEq

/-- A persisted order record. -/
structure Order where
  id : String
  orderNumber : String
  userId : Option String
  status : String
  paymentStatus : String
  subtotal : ℚ
  taxAmount : ℚ
  shippingAmount : ℚ
  discountAmount : ℚ
  totalAmount : ℚ
  shippingAddress : String
  billingAddress : String
  customerNotes : Option String
  items : List OrderItem
  stripePaymentId : Option String
deriving Repr, DecidableEq

/-- The session returned by the external payment provider. -/
structure StripeSession where
  id : String
  url : String
deriving Repr, DecidableEq

/-- The response of the checkout endpoint: success payload, a 400 with a
human-readable message, or a 500 with a message. -/
inductive CheckoutResponse where
  | ok (sessionId url orderId : String)
  | badRequest (msg : String)
  | serverError (msg : String)
deriving Repr, DecidableEq

/-- The product fetch of the checkout route: all active products whose id is
among the requested ids. -/
def fetchProducts (db : List Product) (ids : List String) : List Product :=
  db.filter (fun p => ids.contains p.id && p.isActive)

/-- The per-line validation loop of the checkout route: finds the product,
resolves the variant when one is specified (failing if it is absent),
resolves effective unit price and available stock, checks the requested
quantity against the stock, and accumulates the subtotal. -/
def validateItems (products : List Product) : List CheckoutItem → Except String ℚ
  | [] => Except.ok 0
  | ci :: rest =>
    match products.find? (fun p => p.id == ci.productId) with
    | none => Except.error ("Product " ++ ci.productId ++ " not found")
    | some product =>
      match ci.variantId with
      | some vid =>
        match product.variants.find? (fun v => v.id == vid) with
        | none => Except.error ("Product variant " ++ vid ++ " not found")
        | some variant =>
          if variant.stockQuantity < ci.quantity then
            Except.error ("Insufficient stock for " ++ product.name)
          else
            match validateItems products rest with
            | Except.error e => Except.error e
            | Except.ok s => Except.ok (variant.price * ci.quantity + s)
      | none =>
        if product.stockQuantity < ci.quantity then
          Except.error ("Insufficient stock for " ++ product.name)
        else
          match validateItems products rest with
          | Except.error e => Except.error e
          | Except.ok s =>
            Except.ok (product.salePrice.getD product.basePrice * ci.quantity + s)

/-- The effective unit price used when building an order line: the variant
price when a variant was resolved, else sale-or-base price. -/
def orderItemPrice (product : Product) (variant : Option Variant) : ℚ :=
  match variant with
  | some v => v.price
  | none => product.salePrice.getD product.basePrice

/-- The order line snapshots built while creating the order (the mapping
inside the order create call).  A missing product would be a thrown type
error (the source indexes the find result without a check), modelled as the
error case; after validation it cannot occur. -/
def mkOrderItems (products : List Product) : List CheckoutItem → Except String (List OrderItem)
  | [] => Except.ok []
  | ci :: rest =>
    match products.find? (fun p => p.id == ci.productId) with
    | none => Except.error "TypeError: cannot read properties of undefined"
    | some product =>
      let variant := ci.variantId.bind (fun vid => product.variants.find? (fun v => v.id == vid))
      let price := orderItemPrice product variant
      match mkOrderItems products rest with
      | Except.error e => Except.error e
      | Except.ok tail =>
        Except.ok ({ productId := ci.productId, quantity := ci.quantity,
                     unitPrice := price, totalPrice := price * ci.quantity,
                     productName := product.name,
                     productImage := product.images.head?,
                     productSku := (variant.map Variant.sku).getD product.sku,
                     customizations := ci.customizations } :: tail)

/-- The validation prefix of the checkout handler: each early 400 return of
the source (empty cart, fetched-product count mismatch, per-line product,
variant or stock failure) is an error here, and the success value is the
accumulated subtotal.  All of these returns happen before the order create
call. -/
def checkoutValidate (db : List Product) (req : CheckoutRequest) : Except String ℚ :=
  if req.items.isEmpty then Except.error "No items in cart"
  else if (fetchProducts db (req.items.map CheckoutItem.productId)).length ≠
      (req.items.map CheckoutItem.productId).length then
    Except.error "Some products are no longer available"
  else validateItems (fetchProducts db (req.items.map CheckoutItem.productId)) req.items

/-- The pending order record created by the checkout handler. -/
def mkPendingOrder (userId : Option String) (now : Nat) (orderId : String)
    (req : CheckoutRequest) (subtotal : ℚ) (orderItems : List OrderItem) : Order :=
  { id := orderId, orderNumber := "GD" ++ toString now, userId := userId,
    status := "PENDING", paymentStatus := "PENDING",
    subtotal := subtotal, taxAmount := 0,
    shippingAmount := Checkout.calculateShipping subtotal, discountAmount := 0,
    totalAmount := subtotal + Checkout.calculateShipping subtotal,
    shippingAddress := req.shippingAddress,
    billingAddress := req.billingAddress,
    customerNotes := req.customerNotes,
    items := orderItems, stripePaymentId := none }

/-- The checkout POST handler.  Arguments: the product database, the payment
provider oracle, the session user id, the clock value used for the order
number, the fresh order record id, the order table, and the request.
Returns the response and the resulting order table.  Every thrown error is
caught by the handler; since every failure modelled here carries a message
(is an Error instance), the catch block answers 500 with that message. -/
def processCheckout (db : List Product) (stripeResult : Except String StripeSession)
    (userId : Option String) (now : Nat) (orderId : String)
    (store : List Order) (req : CheckoutRequest) : CheckoutResponse × List Order :=
  match checkoutValidate db req with
  | Except.error msg => (CheckoutResponse.badRequest msg, store)
  | Except.ok subtotal =>
    let products := fetchProducts db (req.items.map CheckoutItem.productId)
    match mkOrderItems products req.items with
    | Except.error msg => (CheckoutResponse.serverError msg, store)
    | Except.ok orderItems =>
      let order := mkPendingOrder userId now orderId req subtotal orderItems
      let store1 := store ++ [order]
      match stripeResult with
      | Except.error emsg => (CheckoutResponse.serverError emsg, store1)
      | Except.ok sess =>
        let store2 := store1.map (fun o =>
          if o.id == order.id then { o with stripePaymentId := some sess.id } else o)
        (CheckoutResponse.ok sess.id sess.url order.id, store2)

/-- Modelled from the spec: the effective unit price of a request line over
the fetched products (variant price if a variant is specified, else
sale-or-base price); 0 when the product or variant is absent, which cannot
occur for a validated line. -/
def specEffectivePrice (products : List Product) (ci : CheckoutItem) : ℚ :=
  match products.find? (fun p => p.id == ci.productId) with
  | none => 0
  | some p =>
    match ci.variantId with
    | none => p.salePrice.getD p.basePrice
    | some vid => ((p.variants.find? (fun v => v.id == vid)).map Variant.price).getD 0

/-- Modelled from the spec: the subtotal as the sum over lines of effective
unit price times quantity. -/
def specSubtotal (products : List Product) (l : List CheckoutItem) : ℚ :=
  (l.map (fun ci => specEffectivePrice products ci * ci.quantity)).sum

/-- Modelled from the spec: the frozen snapshot of one line, carrying name,
image, sku and unit price taken from the fetched products. -/
def specSnapshotItem (products : List Product) (ci : CheckoutItem) : OrderItem :=
  match products.find? (fun p => p.id == ci.productId) with
  | none =>
    { productId := ci.productId, quantity := ci.quantity, unitPrice := 0,
      totalPrice := 0, productName := "", productImage := none,
      productSku := "", customizations := ci.customizations }
  | some p =>
    let variant := ci.variantId.bind (fun vid => p.variants.find? (fun v => v.id == vid))
    { productId := ci.productId, quantity := ci.quantity,
      unitPrice := specEffectivePrice products ci,
      totalPrice := specEffectivePrice products ci * ci.quantity,
      productName := p.name, productImage := p.images.head?,
      productSku := (variant.map Variant.sku).getD p.sku,
      customizations := ci.customizations }

/-- Iterated addItem: apply addItem to each request in turn, drawing fresh
identities from a counter. -/
def addSeq : CartState → List NewCartItem → Nat → CartState
  | s, [], _ => s
  | s, n :: rest, k => addSeq (addItem (toString k) s n).1 rest (k + 1)

/-! ## Concrete fixtures used by counterexamples and witnesses -/

/-- A new cart item with quantity zero (used for C2). -/
def cexZeroQtyItem : NewCartItem :=
  { productId := "p1", variantId := none, name := "Lehenga", image := "img",
    price := 100, quantity := 0, size := none, color := none,
    customizations := none, maxQuantity := 5, sku := "SKU1" }

/-- First variant of the C1 fixture product. -/
def cexVariantA : Variant := { id := "v1", sku := "S1", price := 50, stockQuantity := 10 }

/-- Second variant of the C1 fixture product. -/
def cexVariantB : Variant := { id := "v2", sku := "S2", price := 60, stockQuantity := 10 }

/-- An active, amply stocked product with two variants (used for C1). -/
def cexTwoVariantProduct : Product :=
  { id := "p1", name := "Saree", shortDescription := none, sku := "P1",
    basePrice := 80, salePrice := none, stockQuantity := 10, isActive := true,
    images := ["u1"], variants := [cexVariantA, cexVariantB] }

/-- A checkout request whose two items reference the two variants of the
same product (used for C1). -/
def cexTwoVariantRequest : CheckoutRequest :=
  { items := [
      { productId := "p1", variantId := some "v1", quantity := 1,
        size := none, color := none, customizations := none },
      { productId := "p1", variantId := some "v2", quantity := 1,
        size := none, color := none, customizations := none }],
    shippingAddress := "addr1", billingAddress := "addr2", customerNotes := none }

/-- A catalog query with a non-numeric page parameter and nothing else
(used for C7). -/
def cexBadPageQuery : RawQuery :=
  { page := some "abc", limit := none, category := none, search := none,
    minPrice := none, maxPrice := none, occasion := none, fabric := none,
    color := none, size := none, sortBy := none, inStock := none }

/-- A catalog query with a page parameter below one (used for C7). -/
def cexZeroPageQuery : RawQuery :=
  { page := some "0", limit := none, category := none, search := none,
    minPrice := none, maxPrice := none, occasion := none, fabric := none,
    color := none, size := none, sortBy := none, inStock := none }

/-- An active simple product without variants (used for checkout runs). -/
def cexSimpleProduct : Product :=
  { id := "p1", name := "Saree", shortDescription := none, sku := "P1",
    basePrice := 100, salePrice := none, stockQuantity := 10, isActive := true,
    images := ["u1"], variants := [] }

/-- A one-line checkout request against the simple product. -/
def cexSimpleRequest : CheckoutRequest :=
  { items := [
      { productId := "p1", variantId := none, quantity := 2,
        size := none, color := none, customizations := none }],
    shippingAddress := "addr1", billingAddress := "addr2", customerNotes := none }

/-- An empty-cart checkout request. -/
def cexEmptyRequest : CheckoutRequest :=
  { items := [], shippingAddress := "addr1", billingAddress := "addr2",
    customerNotes := none }

/-- A new cart item with quantity two within ceiling five (used for C4). -/
def cexMergeA : NewCartItem :=
  { productId := "p1", variantId := none, name := "Lehenga", image := "img",
    price := 100, quantity := 2, size := none, color := none,
    customizations := none, maxQuantity := 5, sku := "SKU1" }

/-- A new cart item with the same dedup tuple and quantity three (used for
C4). -/
def cexMergeB : NewCartItem :=
  { productId := "p1", variantId := none, name := "Lehenga", image := "img",
    price := 100, quantity := 3, size := none, color := none,
    customizations := none, maxQuantity := 5, sku := "SKU1" }

/-! ## Claims -/

/-- C6: the cart-side shipping helper and the checkout-side shipping helper
compute the same value for every subtotal, both implement exactly the tier
schedule of the spec (boundaries inclusive at each lower bound), and the
concrete spec examples evaluate as stated. -/
theorem C6_shipping_helpers_agree :
    (∀ s : ℚ, Cart.calculateShipping s = Checkout.calculateShipping s) ∧
    (∀ s : ℚ, Cart.calculateShipping s = specShippingSchedule s) ∧
    Checkout.calculateShipping 150 = 0 ∧
    Checkout.calculateShipping 149.99 = 9.99 ∧
    Checkout.calculateShipping 120 = 9.99 ∧
    Checkout.calculateShipping 100 = 9.99 ∧
    Checkout.calculateShipping 99.99 = 14.99 ∧
    Checkout.calculateShipping 50 = 14.99 ∧
    Checkout.calculateShipping 49.99 = 19.99 ∧
    Checkout.calculateShipping 40 = 19.99 := by
  refine ⟨fun s => rfl, fun s => rfl, by rfl, ?_, by rfl, by rfl, ?_, by rfl, ?_, by rfl⟩
  · norm_num [Checkout.calculateShipping]
  · norm_num [Checkout.calculateShipping]
  · norm_num [Checkout.calculateShipping]

/-- C2: the code violates the quantity invariant: addItem of a fresh item
with quantity 0 is appended rather than rejected, so the resulting cart
holds an entry with quantity 0, outside the interval from 1 to
maxQuantity.  The operation also emits a success toast, not an error. -/
theorem C2_zero_quantity_appended :
    (addItem "id1" initialCartState cexZeroQtyItem).1.items.map CartItem.quantity = [0] ∧
    ¬ cartInvariant (addItem "id1" initialCartState cexZeroQtyItem).1 ∧
    (addItem "id1" initialCartState cexZeroQtyItem).2 =
      [Toast.success "Lehenga added to cart"] := by
  refine ⟨by decide, by decide, by decide⟩

/-- C1: the code rejects a cart whose two items reference two variants of
the same active product: the fetched-product count (one per distinct id)
is compared against the raw item count, so the run answers
ProductUnavailable and creates no order even though the fetched count
equals the count of distinct requested product ids. -/
theorem C1_duplicate_product_rejected :
    (fetchProducts [cexTwoVariantProduct]
        (cexTwoVariantRequest.items.map CheckoutItem.productId)).length =
      ((cexTwoVariantRequest.items.map CheckoutItem.productId).dedup).length ∧
    processCheckout [cexTwoVariantProduct] (Except.ok ⟨"sess1", "url1"⟩)
        none 0 "o1" [] cexTwoVariantRequest =
      (CheckoutResponse.badRequest "Some products are no longer available", []) := by
  refine ⟨by decide, by decide⟩

/-- C7 counterexample: a catalog request with the malformed page parameter
abc (non-numeric, parsed to NaN) does not fail with a validation error,
and neither does a page parameter below one: the claim is false at these
inputs. -/
theorem C7_counterexample :
    jsParseInt "abc" = none ∧
    productsGETstatus cexBadPageQuery ≠ 400 ∧
    productsGETstatus cexZeroPageQuery ≠ 400 := by
  refine ⟨by decide, by decide, by decide⟩

/-- C7 amended: the catalog request fails with a validation error (HTTP
400) exactly when a sortBy value outside the documented enum is supplied;
non-numeric or out-of-range page, limit and price parameters are accepted
by the schema (parsed to NaN) and do not fail the request. -/
theorem C7_amended (q : RawQuery) :
    productsGETstatus q = 400 ↔ sortByAccepted q.sortBy = false := by
  cases h : q.sortBy with
  | none => simp [productsGETstatus, productQuerySchemaParse, sortByAccepted, h]
  | some sb =>
    by_cases hm : sb ∈ sortByValues
    · have hc : sortByValues.contains sb = true := by simpa using hm
      simp [productsGETstatus, productQuerySchemaParse, sortByAccepted, h, hc, hm]
    · have hc : sortByValues.contains sb = false := by
        simpa using hm
      simp [productsGETstatus, productQuerySchemaParse, sortByAccepted, h, hc, hm]

/-- Decoding inverts encoding on a single cart item. -/
theorem decodeItem_encodeItem (it : CartItem) : decodeItem (encodeItem it) = some it := by
  cases it with
  | mk i pid vid n img pr q sz co cu mx sk =>
    cases vid <;> cases sz <;> cases co <;> cases cu <;> rfl

/-- Decoding inverts encoding on a list of cart items. -/
theorem decodeItems_map_encodeItem (l : List CartItem) :
    decodeItems (l.map encodeItem) = some l := by
  induction l with
  | nil => rfl
  | cons it rest ih =>
    simp [decodeItems, decodeItem_encodeItem, ih]

/-- C9: persistence round-trip: serializing the persisted portion of any
cart state and restoring it yields the original item sequence, and a
visibility flag that is false after restore regardless of its value before
serialization, because only the item sequence is in the persisted
portion. -/
theorem C9_persistence_roundtrip (s : CartState) :
    rehydrateCart (serializeCart (persistedPortion s)) =
      { items := s.items, isOpen := false } := by
  simp [serializeCart, persistedPortion, rehydrateCart,
    decodeItems_map_encodeItem, initialCartState]

/-- C10: updateQuantity with an identity carried by no cart item and a
positive quantity is a silent no-op: the state (items and visibility flag)
is unchanged and no toast, in particular no CapacityExceeded error, is
emitted. -/
theorem C10_updateQuantity_absent_id (s : CartState) (itemId : String) (q : ℚ)
    (hq : 0 < q) (habs : ∀ it ∈ s.items, it.id ≠ itemId) :
    updateQuantity s itemId q = (s, []) := by
  have hfind : s.items.find? (fun it => it.id == itemId) = none := by
    apply List.find?_eq_none.mpr
    intro it hit
    simp [habs it hit]
  unfold updateQuantity
  rw [if_neg (not_le.mpr hq), hfind]

/-- Witness for C10: a concrete cart with one item, updated at an absent
identity with quantity one, is returned unchanged with no toast. -/
theorem C10_updateQuantity_absent_id_witness :
    (0 : ℚ) < 1 ∧
    updateQuantity
        { items := [mkFreshItem cexZeroQtyItem "idA"], isOpen := true } "idB" 1 =
      ({ items := [mkFreshItem cexZeroQtyItem "idA"], isOpen := true }, []) := by
  refine ⟨by norm_num, ?_⟩
  exact C10_updateQuantity_absent_id _ "idB" 1 (by norm_num) (by decide)

/-- C3: every checkout-time validation failure (empty item list, unavailable
product or variant, insufficient stock) answers 400 before the order create
write is reached, so the order store after the request is exactly the order
store before it. -/
theorem C3_validation_failure_preserves_store (db : List Product)
    (stripeResult : Except String StripeSession) (userId : Option String)
    (now : Nat) (orderId : String) (store : List Order) (req : CheckoutRequest)
    (msg : String)
    (h : (processCheckout db stripeResult userId now orderId store req).1 =
      CheckoutResponse.badRequest msg) :
    (processCheckout db stripeResult userId now orderId store req).2 = store := by
  unfold processCheckout at h ⊢
  cases hv : checkoutValidate db req with
  | error e => simp [hv]
  | ok subtotal =>
    simp only [hv] at h ⊢
    cases hm : mkOrderItems (fetchProducts db (req.items.map CheckoutItem.productId)) req.items with
    | error e => simp [hm]
    | ok oi =>
      simp only [hm] at h ⊢
      cases stripeResult with
      | error e => simp at h
      | ok sess => simp at h

/-- Witness for C3: the empty-cart request is answered 400 and leaves the
empty order store empty. -/
theorem C3_validation_failure_preserves_store_witness :
    (processCheckout [cexSimpleProduct] (Except.ok ⟨"sess1", "url1"⟩)
        none 0 "o1" [] cexEmptyRequest).1 =
      CheckoutResponse.badRequest "No items in cart" ∧
    (processCheckout [cexSimpleProduct] (Except.ok ⟨"sess1", "url1"⟩)
        none 0 "o1" [] cexEmptyRequest).2 = [] := by
  refine ⟨by decide, ?_⟩
  exact C3_validation_failure_preserves_store [cexSimpleProduct] _ none 0 "o1" []
    cexEmptyRequest "No items in cart" (by decide)

/-- A map that fixes every member of a list leaves the list unchanged. -/
theorem map_id_of_mem {α : Type} (l : List α) (f : α → α) (h : ∀ x ∈ l, f x = x) :
    l.map f = l := by
  induction l with
  | nil => rfl
  | cons a rest ih =>
    simp only [List.map_cons, h a (List.mem_cons_self a rest),
      ih (fun x hx => h x (List.mem_cons_of_mem a hx))]

/-- When the per-line validation loop succeeds, its subtotal is the spec
subtotal and the order-creation mapping succeeds with exactly the spec
snapshots. -/
theorem validateItems_ok_spec (products : List Product) :
    ∀ (l : List CheckoutItem) (s : ℚ), validateItems products l = Except.ok s →
      s = specSubtotal products l ∧
      mkOrderItems products l = Except.ok (l.map (specSnapshotItem products)) := by
  intro l
  induction l with
  | nil =>
    intro s h
    simp [validateItems] at h
    simp [specSubtotal, mkOrderItems, ← h]
  | cons ci rest ih =>
    intro s h
    unfold validateItems at h
    cases hf : products.find? (fun p => p.id == ci.productId) with
    | none => simp [hf] at h
    | some p =>
      simp only [hf] at h
      cases hv : ci.variantId with
      | some vid =>
        simp only [hv] at h
        cases hfv : p.variants.find? (fun v => v.id == vid) with
        | none => simp [hfv] at h
        | some vr =>
          simp only [hfv] at h
          by_cases hst : vr.stockQuantity < ci.quantity
          · simp [hst] at h
          · simp only [if_neg hst] at h
            cases hr : validateItems products rest with
            | error e => simp [hr] at h
            | ok s2 =>
              simp only [hr] at h
              obtain ⟨ih1, ih2⟩ := ih s2 hr
              have hs : s = vr.price * ci.quantity + s2 := by
                cases h; rfl
              constructor
              · rw [hs, ih1]
                simp [specSubtotal, specEffectivePrice, hf, hv, hfv]
              · unfold mkOrderItems
                simp only [hf, hv, ih2]
                simp [specSnapshotItem, specEffectivePrice, orderItemPrice, hf, hv, hfv]
      | none =>
        simp only [hv] at h
        by_cases hst : p.stockQuantity < ci.quantity
        · simp [hst] at h
        · simp only [if_neg hst] at h
          cases hr : validateItems products rest with
          | error e => simp [hr] at h
          | ok s2 =>
            simp only [hr] at h
            obtain ⟨ih1, ih2⟩ := ih s2 hr
            have hs : s = p.salePrice.getD p.basePrice * ci.quantity + s2 := by
              cases h; rfl
            constructor
            · rw [hs, ih1]
              simp [specSubtotal, specEffectivePrice, hf, hv]
            · unfold mkOrderItems
              simp only [hf, hv, ih2]
              simp [specSnapshotItem, specEffectivePrice, orderItemPrice, hf, hv]

/-- A successful checkout validation implies the per-line loop succeeded
with the same subtotal. -/
theorem checkoutValidate_ok (db : List Product) (req : CheckoutRequest)
    (subtotal : ℚ) (hv : checkoutValidate db req = Except.ok subtotal) :
    validateItems (fetchProducts db (req.items.map CheckoutItem.productId))
      req.items = Except.ok subtotal := by
  unfold checkoutValidate at hv
  by_cases h1 : req.items.isEmpty = true
  · rw [if_pos h1] at hv; exact absurd hv (by simp)
  · rw [if_neg h1] at hv
    by_cases h2 : (fetchProducts db (req.items.map CheckoutItem.productId)).length =
        (req.items.map CheckoutItem.productId).length
    · rwa [if_neg (not_not_intro h2)] at hv
    · rw [if_pos h2] at hv; exact absurd hv (by simp)

/-- C5: on every successful checkout exactly one order is appended to the
store, in PENDING order status and PENDING payment status, with zero tax
and discount, subtotal equal to the sum over lines of effective unit price
times quantity, total equal to subtotal plus the shipping for that
subtotal, line snapshots carrying name, image, sku and unit price from the
products fetched during validation, and the session id linked back. -/
theorem C5_successful_checkout_order (db : List Product)
    (stripeResult : Except String StripeSession) (userId : Option String)
    (now : Nat) (orderId : String) (store : List Order) (req : CheckoutRequest)
    (sid u oid : String)
    (hfresh : ∀ o ∈ store, o.id ≠ orderId)
    (hok : (processCheckout db stripeResult userId now orderId store req).1 =
      CheckoutResponse.ok sid u oid) :
    ∃ ord : Order,
      (processCheckout db stripeResult userId now orderId store req).2 =
        store ++ [ord] ∧
      oid = orderId ∧ ord.id = orderId ∧
      ord.status = "PENDING" ∧ ord.paymentStatus = "PENDING" ∧
      ord.taxAmount = 0 ∧ ord.discountAmount = 0 ∧
      ord.subtotal =
        specSubtotal (fetchProducts db (req.items.map CheckoutItem.productId)) req.items ∧
      ord.shippingAmount = Checkout.calculateShipping ord.subtotal ∧
      ord.totalAmount = ord.subtotal + ord.shippingAmount ∧
      ord.items = req.items.map
        (specSnapshotItem (fetchProducts db (req.items.map CheckoutItem.productId))) ∧
      ord.stripePaymentId = some sid := by
  unfold processCheckout at hok ⊢
  cases hv : checkoutValidate db req with
  | error e => simp [hv] at hok
  | ok subtotal =>
    simp only [hv] at hok ⊢
    obtain ⟨hsub, hmk⟩ :=
      validateItems_ok_spec _ _ _ (checkoutValidate_ok db req subtotal hv)
    simp only [hmk] at hok ⊢
    cases stripeResult with
    | error e => simp at hok
    | ok sess =>
      simp only at hok ⊢
      refine ⟨{ mkPendingOrder userId now orderId req subtotal
          (req.items.map (specSnapshotItem
            (fetchProducts db (req.items.map CheckoutItem.productId))))
          with stripePaymentId := some sess.id }, ?_, ?_⟩
      · rw [List.map_append]
        congr 1
        · exact map_id_of_mem _ _ (fun o ho => by
            simp [mkPendingOrder,
              (by simpa using hfresh o ho : (o.id == orderId) = false)])
        · simp [mkPendingOrder]
      · cases hok with
        | refl => exact ⟨rfl, rfl, rfl, rfl, rfl, rfl, hsub, rfl, rfl, rfl, rfl⟩

/-- Witness for C5: a concrete successful checkout run appending exactly
one fully specified pending order. -/
theorem C5_successful_checkout_order_witness :
    (∀ o ∈ ([] : List Order), o.id ≠ "o1") ∧
    (processCheckout [cexSimpleProduct] (Except.ok ⟨"sess1", "url1"⟩)
        none 0 "o1" [] cexSimpleRequest).1 =
      CheckoutResponse.ok "sess1" "url1" "o1" ∧
    ∃ ord : Order,
      (processCheckout [cexSimpleProduct] (Except.ok ⟨"sess1", "url1"⟩)
          none 0 "o1" [] cexSimpleRequest).2 = [] ++ [ord] ∧
      "o1" = "o1" ∧ ord.id = "o1" ∧
      ord.status = "PENDING" ∧ ord.paymentStatus = "PENDING" ∧
      ord.taxAmount = 0 ∧ ord.discountAmount = 0 ∧
      ord.subtotal = specSubtotal
        (fetchProducts [cexSimpleProduct]
          (cexSimpleRequest.items.map CheckoutItem.productId))
        cexSimpleRequest.items ∧
      ord.shippingAmount = Checkout.calculateShipping ord.subtotal ∧
      ord.totalAmount = ord.subtotal + ord.shippingAmount ∧
      ord.items = cexSimpleRequest.items.map
        (specSnapshotItem (fetchProducts [cexSimpleProduct]
          (cexSimpleRequest.items.map CheckoutItem.productId))) ∧
      ord.stripePaymentId = some "sess1" := by
  refine ⟨by simp, by decide, ?_⟩
  exact C5_successful_checkout_order [cexSimpleProduct] (Except.ok ⟨"sess1", "url1"⟩)
    none 0 "o1" [] cexSimpleRequest "sess1" "url1" "o1" (by simp) (by decide)

/-- C8 counterexample: an unexpected payment-provider failure during
checkout is answered 500 with the thrown error message itself in the body,
not with the fixed generic message: the claim is false at this input. -/
theorem C8_counterexample :
    (processCheckout [cexSimpleProduct]
        (Except.error "StripeCardError: card number invalid")
        none 0 "o1" [] cexSimpleRequest).1 =
      CheckoutResponse.serverError "StripeCardError: card number invalid" ∧
    "StripeCardError: card number invalid" ≠ "Failed to create checkout session" := by
  refine ⟨by decide, by decide⟩

/-- C8 amended: an unexpected provider failure during checkout is answered
with HTTP 500, but when the thrown value is an Error its own message is
returned to the caller (internal detail is exposed); the fixed generic
message is used only for thrown values that are not Error instances.  In
the model every failure carries a message, so a run with a failing provider
either fails validation with a 400 or answers 500 carrying the provider
message verbatim. -/
theorem C8_amended (db : List Product) (userId : Option String) (now : Nat)
    (orderId : String) (store : List Order) (req : CheckoutRequest) (m : String) :
    (processCheckout db (Except.error m) userId now orderId store req).1 =
        CheckoutResponse.serverError m ∨
      ∃ b, (processCheckout db (Except.error m) userId now orderId store req).1 =
        CheckoutResponse.badRequest b := by
  unfold processCheckout
  cases hv : checkoutValidate db req with
  | error e => exact Or.inr ⟨e, rfl⟩
  | ok subtotal =>
    obtain ⟨-, hmk⟩ :=
      validateItems_ok_spec _ _ _ (checkoutValidate_ok db req subtotal hv)
    simp [hmk]

/-- The dedup predicate holds when the tuple fields agree. -/
theorem dedupMatch_of_fields (n : NewCartItem) (e : CartItem)
    (h1 : n.productId = e.productId) (h2 : n.variantId = e.variantId)
    (h3 : n.customizations = e.customizations) : dedupMatch n e = true := by
  simp [dedupMatch, h1, h2, h3]

/-- Folding addItem over requests that all match the single entry of the
cart merges every quantity into that entry, provided the running total
stays within the entry ceiling. -/
theorem addSeq_merge (rest : List NewCartItem) :
    ∀ (s : CartState) (e : CartItem) (k : Nat),
      s.items = [e] →
      (∀ n ∈ rest, n.productId = e.productId ∧ n.variantId = e.variantId ∧
        n.customizations = e.customizations ∧ 1 ≤ n.quantity) →
      e.quantity + (rest.map NewCartItem.quantity).sum ≤ e.maxQuantity →
      (addSeq s rest k).items =
        [{ e with quantity := e.quantity + (rest.map NewCartItem.quantity).sum }] := by
  induction rest with
  | nil =>
    intro s e k hitems _ _
    simp [addSeq, hitems]
  | cons n rest2 ih =>
    intro s e k hitems hfields hsum
    obtain ⟨hp, hvv, hcu, hq1⟩ := hfields n (List.mem_cons_self n rest2)
    have hsum2 : (rest2.map NewCartItem.quantity).sum ≥ 0 := by
      apply List.sum_nonneg
      intro x hx
      obtain ⟨n2, hn2, hx2⟩ := List.mem_map.mp hx
      have := (hfields n2 (List.mem_cons_of_mem n hn2)).2.2.2
      rw [← hx2]
      linarith
    have hmatch : dedupMatch n e = true := dedupMatch_of_fields n e hp hvv hcu
    have hfind : s.items.find? (dedupMatch n) = some e := by
      rw [hitems]
      simp [List.find?, hmatch]
    have hnotover : ¬ e.maxQuantity < e.quantity + n.quantity := by
      rw [List.map_cons, List.sum_cons] at hsum
      apply not_lt.mpr
      linarith
    have hstep : (addItem (toString k) s n).1.items =
        [{ e with quantity := e.quantity + n.quantity }] := by
      unfold addItem
      rw [hfind]
      simp only [if_neg hnotover, hitems]
      simp [updateFirstMatch, hmatch]
    have := ih (addItem (toString k) s n).1 { e with quantity := e.quantity + n.quantity }
      (k + 1) hstep
      (fun n2 hn2 => (hfields n2 (List.mem_cons_of_mem n hn2)))
      (by
        rw [List.map_cons, List.sum_cons] at hsum
        simpa [add_assoc] using hsum)
    rw [addSeq, this]
    simp [List.map_cons, List.sum_cons, add_assoc]

/-- C4: for every sequence of addItem calls sharing one dedup tuple,
starting from the empty cart, the resulting cart holds exactly one entry
whose quantity is the sum of the requested quantities, provided the sum
stays within the first entry ceiling (quantities are at least one, as the
data-model invariant requires of cart requests); and any single call that
would push the existing entry past its ceiling leaves the state unchanged
and emits the CapacityExceeded error toast. -/
theorem C4_addItem_merge :
    (∀ (n0 : NewCartItem) (rest : List NewCartItem) (k : Nat),
      1 ≤ n0.quantity →
      (∀ n ∈ rest, n.productId = n0.productId ∧ n.variantId = n0.variantId ∧
        n.customizations = n0.customizations ∧ 1 ≤ n.quantity) →
      n0.quantity + (rest.map NewCartItem.quantity).sum ≤ n0.maxQuantity →
      (addSeq initialCartState (n0 :: rest) k).items =
        [{ mkFreshItem n0 (toString k) with
            quantity := n0.quantity + (rest.map NewCartItem.quantity).sum }]) ∧
    (∀ (s : CartState) (fid : String) (n : NewCartItem) (e : CartItem),
      s.items.find? (dedupMatch n) = some e →
      e.maxQuantity < e.quantity + n.quantity →
      addItem fid s n = (s, [Toast.error (stockMsg e.maxQuantity)])) := by
  constructor
  · intro n0 rest k h0 hfields hsum
    have hsum2 : (rest.map NewCartItem.quantity).sum ≥ 0 := by
      apply List.sum_nonneg
      intro x hx
      obtain ⟨n2, hn2, hx2⟩ := List.mem_map.mp hx
      have := (hfields n2 hn2).2.2.2
      rw [← hx2]
      linarith
    have hstep : (addItem (toString k) initialCartState n0).1.items =
        [mkFreshItem n0 (toString k)] := by
      unfold addItem initialCartState
      simp only [List.find?]
      rw [if_neg (not_lt.mpr (by linarith))]
      rfl
    rw [addSeq]
    exact addSeq_merge rest _ (mkFreshItem n0 (toString k)) (k + 1) hstep
      (fun n2 hn2 => hfields n2 hn2) hsum
  · intro s fid n e hfind hover
    unfold addItem
    rw [hfind]
    simp only [if_pos hover]

/-- Witness for C4: two concrete merging adds of quantities two and three
against ceiling five yield one entry of quantity five, and a further add of
quantity three is rejected unchanged with the error toast. -/
theorem C4_addItem_merge_witness :
    (1 : ℚ) ≤ cexMergeA.quantity ∧
    cexMergeA.quantity + ([cexMergeB].map NewCartItem.quantity).sum ≤ cexMergeA.maxQuantity ∧
    (addSeq initialCartState (cexMergeA :: [cexMergeB]) 0).items =
      [{ mkFreshItem cexMergeA (toString 0) with
          quantity := cexMergeA.quantity + ([cexMergeB].map NewCartItem.quantity).sum }] ∧
    addItem "fid" { items := [{ mkFreshItem cexMergeA "0" with quantity := 5 }], isOpen := true }
        cexMergeB =
      ({ items := [{ mkFreshItem cexMergeA "0" with quantity := 5 }], isOpen := true },
        [Toast.error (stockMsg
          ({ mkFreshItem cexMergeA "0" with quantity := 5 } : CartItem).maxQuantity)]) := by
  refine ⟨by norm_num [cexMergeA], by norm_num [cexMergeA, cexMergeB], ?_, ?_⟩
  · exact C4_addItem_merge.1 cexMergeA [cexMergeB] 0 (by norm_num [cexMergeA])
      (by intro n hn; simp at hn; subst hn; refine ⟨rfl, rfl, rfl, by norm_num [cexMergeB]⟩)
      (by norm_num [cexMergeA, cexMergeB])
  · exact C4_addItem_merge.2 _ "fid" cexMergeB _ (by decide)
      (by norm_num [cexMergeA, cexMergeB, mkFreshItem])

end GD
